import Mathlib

/-!
# Verification of the Bitbucket SCM adapter (`src/index.js`)

Shallow embedding of the normalization layer of the `scm-bitbucket`
adapter. JavaScript strings are modelled as Lean `String`s;
`String.prototype.split` with a one-character separator is modelled by
`jsSplit` below (via `List.splitOn` on the character list, which has the
same semantics: `"".split(x) = [""]`, empty fields kept, no limit).
JavaScript `undefined` is modelled by `Option.none`: a field access that
may be absent (`hoek.reach`, destructuring a too-short array, indexing
past the end of an array) produces an `Option`. JavaScript template
interpolation of a possibly-`undefined` value is `jsShow`, which renders
`undefined` as the literal string "undefined", as template literals do.

Asynchronous HTTP calls are modelled by passing the upstream
`HttpResponse` (status code plus the parsed JSON body restricted to the
fields the code reads) as an explicit argument; a `Promise` that can
reject is `Except String`, the error being the thrown `Error`'s message.
A `Promise` that resolves with `null` for "ignored" is `Option`.
-/

namespace ScmBitbucket

/-- JS `s.split(sep)` for a single-character separator: split the
character list on the separator, keeping empty fields. -/
def jsSplit (sep : Char) (s : String) : List String :=
  (s.data.splitOn sep).map List.asString

/-- JS template interpolation of a possibly-undefined string value:
`undefined` renders as the string "undefined". -/
def jsShow : Option String → String
  | some s => s
  | none => "undefined"

/-! ## RepoLocator: the opaque `hostname:repoId:branch` reference

`getScmUriParts` embeds the function of the same name
(src/index.js lines 50-56): a bare destructuring assignment over
`scmUri.split(':')`. A too-short split leaves fields `undefined`
(`none`); extra fields are silently dropped. There is no validation and
no failure path in the source. -/

structure ScmUriParts where
  hostname : Option String
  repoId : Option String
  branch : Option String
deriving Repr, DecidableEq

/-- `getScmUriParts(scmUri)`: `[scm.hostname, scm.repoId, scm.branch] =
scmUri.split(':')`. -/
def getScmUriParts (scmUri : String) : ScmUriParts :=
  let parts := jsSplit ':' scmUri
  { hostname := parts[0]?, repoId := parts[1]?, branch := parts[2]? }

/-- Composition of the opaque reference, as `_parseUrl` builds it
(src/index.js lines 112-113) with `repoId` already assembled. -/
def composeScmUri (hostname repoId branch : String) : String :=
  hostname ++ ":" ++ repoId ++ ":" ++ branch

/-! ## HTTP model

An upstream call is modelled by its `HttpResponse`: the status code and
the parsed JSON body restricted to the fields the code reads. A thrown
`Error` is the `Except.error` case carrying the message string. -/

structure HttpResponse (β : Type) where
  statusCode : Nat
  body : β
deriving Repr, DecidableEq

deriving instance DecidableEq for Except

/-- Did the promise reject (the code throw)? -/
def isError {α : Type} : Except String α → Bool
  | .error _ => true
  | .ok _ => false

/-! ## RepoLocator: `_parseUrl` (src/index.js lines 89-115)

`getRepoInfo` applies the external `CHECKOUT_URL` regex from
`screwdriver-data-schema`; its match components (hostname, user, repo,
branch with the leading `#` sliced off) are taken here as the already
extracted `RepoInfo`. The branch lookup response body is read only at
`response.body.repository.uuid`. -/

structure RepoInfo where
  hostname : String
  repo : String
  branch : String
  username : String
deriving Repr, DecidableEq

/-- Branch-lookup body: the code reads `response.body.repository.uuid`. -/
structure BranchBody where
  repositoryUuid : String
deriving Repr, DecidableEq

/-- `JSON.stringify` of the modelled branch-lookup body. -/
def BranchBody.stringify (b : BranchBody) : String :=
  "\x7b\"repository\":\x7b\"uuid\":\"" ++ b.repositoryUuid ++ "\"\x7d\x7d"

/-- `_parseUrl`: on 404 reject with "Cannot find repository", on other
non-200 reject with the status-code message, else resolve to
`hostname:username/uuid:branch`. -/
def parseUrl (checkoutUrl : String) (repoInfo : RepoInfo)
    (response : HttpResponse BranchBody) : Except String String :=
  if response.statusCode = 404 then
    .error ("Cannot find repository " ++ checkoutUrl)
  else if response.statusCode ≠ 200 then
    .error ("STATUS CODE " ++ toString response.statusCode ++ ": "
      ++ response.body.stringify)
  else
    .ok (repoInfo.hostname ++ ":" ++ repoInfo.username ++ "/"
      ++ response.body.repositoryUuid ++ ":" ++ repoInfo.branch)

/-! ## WebhookNormalizer: `_parseHook` (src/index.js lines 125-177) -/

/-- The two request headers the code reads. `headers['x-event-key']`
must be a string (the code calls `.split` on it unconditionally); the
request-uuid header may be absent. -/
structure Headers where
  xEventKey : String
  xRequestUuid : Option String
deriving Repr, DecidableEq

/-- One entry of `payload.push.changes`, at the two paths the code
reaches into it (`new.name`, `new.target.hash`), each possibly absent. -/
structure PushChange where
  newName : Option String
  newTargetHash : Option String
deriving Repr, DecidableEq

/-- The webhook payload, restricted to the paths `_parseHook` reads via
`hoek.reach`. `repository.links.html.href` is kept mandatory because
the code passes it to `url.parse`, which requires a string;
`push.changes` is kept a (possibly empty) list for the same reason
(`changes[0]` on a missing list would throw). -/
structure HookPayload where
  repositoryOwnerUsername : Option String
  repositoryLinksHtmlHref : String
  actorUsername : Option String
  pushChanges : List PushChange
  pullrequestDestinationBranchName : Option String
  pullrequestSourceCommitHash : Option String
  pullrequestId : Option Nat
  pullrequestSourceBranchName : Option String
deriving Repr, DecidableEq

/-- The components of node's legacy `url.parse` that the code reads. -/
structure UrlParts where
  protocol : String
  hostname : String
  pathname : String
deriving Repr, DecidableEq

/-- `url.parse(href)` for well-formed `scheme://host/path` hrefs (the
shape of Bitbucket's `repository.links.html.href`). -/
def urlParse (href : String) : UrlParts :=
  match href.splitOn "://" with
  | [] => { protocol := "", hostname := "", pathname := "" }
  | scheme :: rest =>
    let remainder := String.intercalate "://" rest
    match remainder.splitOn "/" with
    | [] => { protocol := scheme ++ ":", hostname := "", pathname := "" }
    | host :: pathSegments =>
      { protocol := scheme ++ ":"
        hostname := host
        pathname := String.intercalate "/" ("" :: pathSegments) }

/-- The checkout url `_parseHook` synthesizes:
`` `${link.protocol}//${repoOwner}@${link.hostname}${link.pathname}.git` ``. -/
def hookCheckoutUrl (payload : HookPayload) : String :=
  let link := urlParse payload.repositoryLinksHtmlHref
  link.protocol ++ "//" ++ jsShow payload.repositoryOwnerUsername ++ "@"
    ++ link.hostname ++ link.pathname ++ ".git"

/-- The normalized event object built by `_parseHook`. Fields the repo
branch never sets (`prNum`, `prRef`) are `none` there, matching the
absent properties of the JS object. -/
structure ParsedHook where
  hookId : Option String
  type : String
  action : String
  username : Option String
  checkoutUrl : String
  branch : Option String
  sha : Option String
  prNum : Option Nat
  prRef : Option String
deriving Repr, DecidableEq

/-- `_parseHook(headers, payload)`: split the event key into
`type:action`, then branch exactly as the `switch` does. Resolving with
`null` ("ignored") is `none`. The `[]` case of the match is unreachable
(`jsSplit_ne_nil`). -/
def parseHook (headers : Headers) (payload : HookPayload) : Option ParsedHook :=
  match jsSplit ':' headers.xEventKey with
  | [] => none
  | typeHeader :: rest =>
    let actionHeader : Option String := rest[0]?
    if typeHeader = "repo" then
      if actionHeader ≠ some "push" then none
      else
        let changes := payload.pushChanges
        some { hookId := headers.xRequestUuid
               type := "repo"
               action := "push"
               username := payload.actorUsername
               checkoutUrl := hookCheckoutUrl payload
               branch := changes[0]?.bind PushChange.newName
               sha := changes[0]?.bind PushChange.newTargetHash
               prNum := none
               prRef := none }
    else if typeHeader = "pullrequest" then
      let mapped : Option String :=
        if actionHeader = some "created" then some "opened"
        else if actionHeader = some "updated" then some "synchronized"
        else if actionHeader = some "fullfilled" ∨ actionHeader = some "rejected" then
          some "closed"
        else none
      match mapped with
      | none => none
      | some act =>
        some { hookId := headers.xRequestUuid
               type := "pr"
               action := act
               username := payload.actorUsername
               checkoutUrl := hookCheckoutUrl payload
               branch := payload.pullrequestDestinationBranchName
               sha := payload.pullrequestSourceCommitHash
               prNum := payload.pullrequestId
               prRef := payload.pullrequestSourceBranchName }
    else none

/-! ## StatusTranslator: `STATE_MAP` and `_updateCommitStatus`
(src/index.js lines 18-24 and 421-447) -/

/-- The `STATE_MAP` object literal; a JS property lookup outside the
five keys yields `undefined`. -/
def STATE_MAP : String → Option String
  | "SUCCESS" => some "SUCCESSFUL"
  | "RUNNING" => some "INPROGRESS"
  | "QUEUED" => some "INPROGRESS"
  | "FAILURE" => some "FAILED"
  | "ABORTED" => some "STOPPED"
  | _ => none

structure UpdateCommitStatusConfig where
  scmUri : String
  sha : String
  buildStatus : String
  url : String
  jobName : Option String
deriving Repr, DecidableEq

/-- The JSON body POSTed to the build-status endpoint. -/
structure CommitStatusBody where
  url : String
  state : Option String
  key : String
  description : String
deriving Repr, DecidableEq

/-- The body `_updateCommitStatus` builds: `state` through `STATE_MAP`,
`key` the sha, and the `config.jobName ? ... : ...` ternary on JS
truthiness (the empty string is falsy). The POST itself and the
200/201 acceptance check are transport; the body is what this layer
decides. -/
def commitStatusBody (config : UpdateCommitStatusConfig) : CommitStatusBody :=
  { url := config.url
    state := STATE_MAP config.buildStatus
    key := config.sha
    description :=
      match config.jobName with
      | some j => if j = "" then "Screwdriver" else "Screwdriver/" ++ j
      | none => "Screwdriver" }

/-! ## PermissionAggregator: `_getPermissions` (src/index.js 366-407) -/

/-- One entry of the repository list body; the code reads `r.uuid`. -/
structure RepoValue where
  uuid : String
deriving Repr, DecidableEq

/-- Body of a repository-list response: `response.body.values`. -/
structure PermissionsBody where
  values : List RepoValue
deriving Repr, DecidableEq

def RepoValue.stringify (r : RepoValue) : String :=
  "\x7b\"uuid\":\"" ++ r.uuid ++ "\"\x7d"

def PermissionsBody.stringify (b : PermissionsBody) : String :=
  "\x7b\"values\":[" ++ String.intercalate "," (b.values.map RepoValue.stringify) ++ "]\x7d"

/-- The query url `getPerm` builds for a desired access level:
`?role=admin` for admin, `?role=contributor` for push, bare otherwise. -/
def permUrl (repoId : String) (desiredAccess : String) : String :=
  let owner := (jsSplit '/' repoId)[0]?
  let base := "https://api.bitbucket.org/2.0/repositories/" ++ jsShow owner
  if desiredAccess = "admin" then base ++ "?role=admin"
  else if desiredAccess = "push" then base ++ "?role=contributor"
  else base

/-- The inner `getPerm(repoId, desiredAccess, token)` closure: split the
repoId at `/` into owner and uuid, reject on non-200, else test whether
the uuid occurs in the returned list (`values.some(r => r.uuid === uuid)`;
a strict comparison against an `undefined` uuid is false). -/
def getPerm (repoId : String) (desiredAccess : String)
    (response : HttpResponse PermissionsBody) : Except String Bool :=
  let uuid := (jsSplit '/' repoId)[1]?
  let _requestUrl := permUrl repoId desiredAccess
  if response.statusCode ≠ 200 then
    .error ("STATUS CODE " ++ toString response.statusCode ++ ": "
      ++ response.body.stringify)
  else
    .ok (response.body.values.any fun r => some r.uuid == uuid)

structure Permissions where
  admin : Bool
  push : Bool
  pull : Bool
deriving Repr, DecidableEq

/-- `_getPermissions`: `Promise.all` over the three scope queries, then
assemble `{admin, push, pull}`. `repoId` is the decoded `scm.repoId`
field of the scmUri. `Promise.all` rejects as soon as any of the three
queries rejects (the record is built only from three fulfilled
queries); which query's error is surfaced when several fail is a timing
race in JS, taken here in admin, push, pull order. -/
def getPermissions (repoId : String)
    (adminResponse pushResponse pullResponse : HttpResponse PermissionsBody) :
    Except String Permissions :=
  match getPerm repoId "admin" adminResponse,
      getPerm repoId "push" pushResponse,
      getPerm repoId "pull" pullResponse with
  | .ok admin, .ok push, .ok pull => .ok { admin := admin, push := push, pull := pull }
  | .error e, _, _ => .error e
  | _, .error e, _ => .error e
  | _, _, .error e => .error e

/-! ## CommitResolver / ContentFetcher / AuthorDecorator
(`_getCommitSha` 300-322, `_getFile` 334-356, `_decorateAuthor` 187-212,
`_decorateCommit` 261-290) -/

/-- Branch-ref body: the code reads `response.body.target.hash`. -/
structure ShaTargetBody where
  targetHash : String
deriving Repr, DecidableEq

def ShaTargetBody.stringify (b : ShaTargetBody) : String :=
  "\x7b\"target\":\x7b\"hash\":\"" ++ b.targetHash ++ "\"\x7d\x7d"

/-- `_getCommitSha`: reject on any status other than 200, else resolve
to the branch head sha. -/
def getCommitSha (response : HttpResponse ShaTargetBody) : Except String String :=
  if response.statusCode ≠ 200 then
    .error ("STATUS CODE " ++ toString response.statusCode ++ ": "
      ++ response.body.stringify)
  else
    .ok response.body.targetHash

/-- File-content body: the code reads `response.body.data`. -/
structure FileBody where
  data : String
deriving Repr, DecidableEq

def FileBody.stringify (b : FileBody) : String :=
  "\x7b\"data\":\"" ++ b.data ++ "\"\x7d"

/-- `_getFile`: reject on any status other than 200, else resolve to the
file content. -/
def getFile (response : HttpResponse FileBody) : Except String String :=
  if response.statusCode ≠ 200 then
    .error ("STATUS CODE " ++ toString response.statusCode ++ ": "
      ++ response.body.stringify)
  else
    .ok response.body.data

/-- User-lookup body fields read by `_decorateAuthor`. -/
structure UserBody where
  linksHtmlHref : String
  displayName : String
  username : String
  linksAvatarHref : String
deriving Repr, DecidableEq

def UserBody.stringify (b : UserBody) : String :=
  "\x7b\"links\":\x7b\"html\":\x7b\"href\":\"" ++ b.linksHtmlHref
    ++ "\"\x7d,\"avatar\":\x7b\"href\":\"" ++ b.linksAvatarHref
    ++ "\"\x7d\x7d,\"display_name\":\"" ++ b.displayName
    ++ "\",\"username\":\"" ++ b.username ++ "\"\x7d"

structure DecoratedAuthor where
  url : String
  name : String
  username : String
  avatar : String
deriving Repr, DecidableEq

/-- `_decorateAuthor`: reject on non-200, else project the four fields. -/
def decorateAuthor (response : HttpResponse UserBody) : Except String DecoratedAuthor :=
  if response.statusCode ≠ 200 then
    .error ("STATUS CODE " ++ toString response.statusCode ++ ": "
      ++ response.body.stringify)
  else
    .ok { url := response.body.linksHtmlHref
          name := response.body.displayName
          username := response.body.username
          avatar := response.body.linksAvatarHref }

/-- Commit-lookup body fields read by `_decorateCommit`. -/
structure CommitBody where
  linksHtmlHref : String
  message : String
  authorUserUsername : String
deriving Repr, DecidableEq

def CommitBody.stringify (b : CommitBody) : String :=
  "\x7b\"links\":\x7b\"html\":\x7b\"href\":\"" ++ b.linksHtmlHref
    ++ "\"\x7d\x7d,\"message\":\"" ++ b.message
    ++ "\",\"author\":\x7b\"user\":\x7b\"username\":\""
    ++ b.authorUserUsername ++ "\"\x7d\x7d\x7d"

structure DecoratedCommit where
  url : String
  message : String
  author : DecoratedAuthor
deriving Repr, DecidableEq

/-- `_decorateCommit`: reject on non-200 for the commit lookup, else
decorate the author from the follow-up user lookup and assemble the
decorated commit. -/
def decorateCommit (commitResponse : HttpResponse CommitBody)
    (authorResponse : HttpResponse UserBody) : Except String DecoratedCommit :=
  if commitResponse.statusCode ≠ 200 then
    .error ("STATUS CODE " ++ toString commitResponse.statusCode ++ ": "
      ++ commitResponse.body.stringify)
  else
    (decorateAuthor authorResponse).map fun author =>
      { url := commitResponse.body.linksHtmlHref
        message := commitResponse.body.message
        author := author }

/-! ## Sample inputs used by the concrete theorems -/

/-- A push payload whose change list has TWO entries with distinct
branches/shas, so first-entry and last-entry behaviour can be told
apart. -/
def samplePushPayload : HookPayload :=
  { repositoryOwnerUsername := some "owner1"
    repositoryLinksHtmlHref := "https://bitbucket.org/owner1/repo1"
    actorUsername := some "alice"
    pushChanges := [⟨some "dev", some "111aaa"⟩, ⟨some "main", some "abc123"⟩]
    pullrequestDestinationBranchName := none
    pullrequestSourceCommitHash := none
    pullrequestId := none
    pullrequestSourceBranchName := none }

/-- The push payload with an empty change list. -/
def sampleEmptyPushPayload : HookPayload :=
  { samplePushPayload with pushChanges := [] }

/-- A pull-request payload. -/
def samplePrPayload : HookPayload :=
  { repositoryOwnerUsername := some "owner1"
    repositoryLinksHtmlHref := "https://bitbucket.org/owner1/repo1"
    actorUsername := some "bob"
    pushChanges := []
    pullrequestDestinationBranchName := some "master"
    pullrequestSourceCommitHash := some "40171b6"
    pullrequestId := some 3
    pullrequestSourceBranchName := some "testbranch" }

/-! ## Lemmas about `jsSplit` -/

/-- `jsSplit` never returns the empty list (JS `split` always yields at
least one element). -/
theorem jsSplit_ne_nil (sep : Char) (s : String) : jsSplit sep s ≠ [] := by
  unfold jsSplit
  intro h
  exact List.splitOnP_ne_nil _ s.data (List.map_eq_nil_iff.mp h)

/-- A string free of the separator splits to the single field equal to
the whole string. -/
theorem jsSplit_single (sep : Char) (x : String) (hx : sep ∉ x.data) :
    jsSplit sep x = [x] := by
  unfold jsSplit List.splitOn
  rw [List.splitOnP_eq_single]
  · simpa using String.asString_toList x
  · intro c hc
    simp only [beq_iff_eq]
    intro h; exact hx (h ▸ hc)

/-- Splitting `x ++ sep ++ y` where `x` is separator-free yields `x`
followed by the split of `y`. -/
theorem jsSplit_append_sep (sep : Char) (x y : String) (hx : sep ∉ x.data) :
    jsSplit sep (x ++ String.singleton sep ++ y) = x :: jsSplit sep y := by
  unfold jsSplit List.splitOn
  have hdata : (x ++ String.singleton sep ++ y).data = x.data ++ sep :: y.data := by
    simp [String.data_append, String.singleton]
  have hfree : ∀ c ∈ x.data, ¬((c == sep) = true) := by
    intro c hc
    simp only [beq_iff_eq]
    intro h; exact hx (h ▸ hc)
  rw [hdata, List.splitOnP_first (fun c => c == sep) x.data hfree sep (by simp) y.data]
  simp only [List.map_cons]
  rw [show x.data.asString = x from String.asString_toList x]

theorem jsSplit_colon_append (x y : String) (hx : ':' ∉ x.data) :
    jsSplit ':' (x ++ ":" ++ y) = x :: jsSplit ':' y := by
  have h : (":" : String) = String.singleton ':' := rfl
  rw [h]; exact jsSplit_append_sep ':' x y hx

/-- Splitting a composed three-field reference recovers the fields. -/
theorem jsSplit_composeScmUri (h r b : String)
    (hh : ':' ∉ h.data) (hr : ':' ∉ r.data) (hb : ':' ∉ b.data) :
    jsSplit ':' (composeScmUri h r b) = [h, r, b] := by
  unfold composeScmUri
  have e1 : h ++ ":" ++ r ++ ":" ++ b = h ++ ":" ++ (r ++ ":" ++ b) := by
    simp [String.append_assoc]
  rw [e1, jsSplit_colon_append h _ hh, jsSplit_colon_append r b hr,
    jsSplit_single ':' b hb]

/-- Splitting `x ++ "/" ++ y` with a slash-free `x` (the split
`getPerm` applies to the repoId). -/
theorem jsSplit_slash_append (x y : String) (hx : '/' ∉ x.data) :
    jsSplit '/' (x ++ "/" ++ y) = x :: jsSplit '/' y := by
  have h : ("/" : String) = String.singleton '/' := rfl
  rw [h]; exact jsSplit_append_sep '/' x y hx

/-! ## Evaluation lemmas for `parseHook` -/

/-- On the exact event key `repo:push`, `parseHook` builds the push
event from the FIRST change entry (`changes[0]`). -/
theorem parseHook_repo_push (u : Option String) (p : HookPayload) :
    parseHook ⟨"repo:push", u⟩ p = some
      { hookId := u
        type := "repo"
        action := "push"
        username := p.actorUsername
        checkoutUrl := hookCheckoutUrl p
        branch := (p.pushChanges[0]?).bind PushChange.newName
        sha := (p.pushChanges[0]?).bind PushChange.newTargetHash
        prNum := none
        prRef := none } := rfl

/-- On an event key `pullrequest:<a>` with a colon-free action part,
`parseHook` applies the action table and otherwise ignores the hook. -/
theorem parseHook_pullrequest (u : Option String) (p : HookPayload) (a : String)
    (ha : ':' ∉ a.data) :
    parseHook ⟨"pullrequest:" ++ a, u⟩ p =
      (if a = "created" then some "opened"
       else if a = "updated" then some "synchronized"
       else if a = "fullfilled" ∨ a = "rejected" then some "closed"
       else none).map fun act =>
        { hookId := u
          type := "pr"
          action := act
          username := p.actorUsername
          checkoutUrl := hookCheckoutUrl p
          branch := p.pullrequestDestinationBranchName
          sha := p.pullrequestSourceCommitHash
          prNum := p.pullrequestId
          prRef := p.pullrequestSourceBranchName } := by
  have hsplit : jsSplit ':' ("pullrequest:" ++ a) = ["pullrequest", a] := by
    rw [show ("pullrequest:" ++ a : String) = "pullrequest" ++ ":" ++ a from rfl,
      jsSplit_colon_append "pullrequest" a (by decide), jsSplit_single ':' a ha]
  unfold parseHook
  simp only [hsplit]
  rw [if_neg (show ¬("pullrequest" : String) = "repo" by decide)]
  simp only [if_true, List.getElem?_cons_zero, Option.some.injEq]
  split_ifs <;> rfl

/-! ## Claims -/

/-- **C1** (counterexample). The claim says a `repo:push` event reports
the branch and sha of the LAST entry of the change list. On a payload
whose change list is `[dev/111aaa, main/abc123]`, `_parseHook` reports
branch `dev` and sha `111aaa` — the FIRST entry (`changes[0]`) — while
the last entry's values are `main`/`abc123`. -/
theorem push_reports_first_entry_not_last :
    (parseHook ⟨"repo:push", some "hook-1"⟩ samplePushPayload).bind ParsedHook.branch
        = some "dev"
    ∧ (parseHook ⟨"repo:push", some "hook-1"⟩ samplePushPayload).bind ParsedHook.sha
        = some "111aaa"
    ∧ samplePushPayload.pushChanges.getLast?.bind PushChange.newName = some "main"
    ∧ samplePushPayload.pushChanges.getLast?.bind PushChange.newTargetHash = some "abc123"
    ∧ (parseHook ⟨"repo:push", some "hook-1"⟩ samplePushPayload).bind ParsedHook.branch
        ≠ samplePushPayload.pushChanges.getLast?.bind PushChange.newName := by
  decide

/-- **C1** (amended). For every webhook whose event-category header is
`repo:push` and whose payload carries a non-empty change list, the
normalized event has type `repo`, action `push`, and reports the branch
name and commit sha of the FIRST entry (`changes[0]`) of the change
list. -/
theorem push_event_reports_first_change (h : Headers) (p : HookPayload)
    (hkey : h.xEventKey = "repo:push") (hne : p.pushChanges ≠ []) :
    ∃ e, parseHook h p = some e
      ∧ e.type = "repo" ∧ e.action = "push"
      ∧ e.branch = (p.pushChanges[0]?).bind PushChange.newName
      ∧ e.sha = (p.pushChanges[0]?).bind PushChange.newTargetHash := by
  obtain ⟨k, u⟩ := h
  have hk : k = "repo:push" := hkey
  subst hk
  exact ⟨_, parseHook_repo_push u p, rfl, rfl, rfl, rfl⟩

/-- **C1** witness: the amended theorem applied to the concrete
two-entry push payload. -/
theorem push_event_reports_first_change_witness :
    ∃ e, parseHook ⟨"repo:push", some "hook-1"⟩ samplePushPayload = some e
      ∧ e.type = "repo" ∧ e.action = "push"
      ∧ e.branch = (samplePushPayload.pushChanges[0]?).bind PushChange.newName
      ∧ e.sha = (samplePushPayload.pushChanges[0]?).bind PushChange.newTargetHash :=
  push_event_reports_first_change ⟨"repo:push", some "hook-1"⟩ samplePushPayload
    rfl (by decide)

/-- **C2** (counterexample). The claim says action `fulfilled` maps to
`closed`; the code only recognizes the misspelled `fullfilled`, so the
event key `pullrequest:fulfilled` is ignored (`null`), not `closed`. -/
theorem pr_fulfilled_spelling_is_ignored :
    parseHook ⟨"pullrequest:fulfilled", some "hook-2"⟩ samplePrPayload = none := by
  decide

/-- **C2** (amended). For a webhook whose event-category header is
`pullrequest:<a>` (colon-free action part), the action is re-mapped by
the fixed table `created → opened`, `updated → synchronized`,
`fullfilled → closed` (the double-l spelling the code matches),
`rejected → closed`; any action outside these four yields the `null`
"ignored" marker, not an error. -/
theorem pr_action_table (h : Headers) (p : HookPayload) (a : String)
    (hkey : h.xEventKey = "pullrequest:" ++ a) (ha : ':' ∉ a.data) :
    (a = "created" → (parseHook h p).map ParsedHook.action = some "opened")
    ∧ (a = "updated" → (parseHook h p).map ParsedHook.action = some "synchronized")
    ∧ (a = "fullfilled" ∨ a = "rejected" →
        (parseHook h p).map ParsedHook.action = some "closed")
    ∧ (a ≠ "created" → a ≠ "updated" → a ≠ "fullfilled" → a ≠ "rejected" →
        parseHook h p = none) := by
  obtain ⟨k, u⟩ := h
  have hk : k = "pullrequest:" ++ a := hkey
  subst hk
  rw [parseHook_pullrequest u p a ha]
  refine ⟨?_, ?_, ?_, ?_⟩
  · intro h1; subst h1; rfl
  · intro h1; subst h1; rfl
  · rintro (h1 | h1) <;> subst h1 <;> rfl
  · intro h1 h2 h3 h4
    rw [if_neg h1, if_neg h2, if_neg (by simp [h3, h4])]
    rfl

/-- **C2** witness: the amended theorem applied at the event key
`pullrequest:fullfilled`, giving action `closed`. -/
theorem pr_action_table_witness :
    (parseHook ⟨"pullrequest:fullfilled", some "hook-3"⟩ samplePrPayload).map
        ParsedHook.action = some "closed" :=
  (pr_action_table ⟨"pullrequest:fullfilled", some "hook-3"⟩ samplePrPayload
    "fullfilled" rfl (by decide)).2.2.1 (Or.inl rfl)

/-- **C9** (confirmed). Webhook normalization is deterministic: equal
header+payload inputs yield equal results (`parseHook` is a pure
function of its two arguments; no hidden state enters the model because
none is read by the source). -/
theorem parseHook_deterministic (h₁ h₂ : Headers) (p₁ p₂ : HookPayload)
    (hh : h₁ = h₂) (hp : p₁ = p₂) : parseHook h₁ p₁ = parseHook h₂ p₂ := by
  subst hh; subst hp; rfl

/-- **C9** witness: determinism applied at a concrete header+payload. -/
theorem parseHook_deterministic_witness :
    parseHook ⟨"repo:push", some "hook-1"⟩ samplePushPayload
      = parseHook ⟨"repo:push", some "hook-1"⟩ samplePushPayload :=
  parseHook_deterministic ⟨"repo:push", some "hook-1"⟩ ⟨"repo:push", some "hook-1"⟩
    samplePushPayload samplePushPayload rfl rfl

/-- **C10** (confirmed). A `repo:push` webhook with an EMPTY change list
still resolves to a normalized event (type `repo`, action `push`) whose
branch and sha are `undefined` (`none`) — not the ignored marker and
not an error (`changes[0]` is `undefined` and `hoek.reach` of
`undefined` is `undefined`). -/
theorem push_event_empty_change_list (h : Headers) (p : HookPayload)
    (hkey : h.xEventKey = "repo:push") (hempty : p.pushChanges = []) :
    ∃ e, parseHook h p = some e ∧ e.type = "repo" ∧ e.action = "push"
      ∧ e.branch = none ∧ e.sha = none := by
  obtain ⟨k, u⟩ := h
  have hk : k = "repo:push" := hkey
  subst hk
  refine ⟨_, parseHook_repo_push u p, rfl, rfl, ?_, ?_⟩ <;> simp [hempty]

/-- **C10** witness: the empty-change-list payload resolves to a push
event with `branch = none` and `sha = none`. -/
theorem push_event_empty_change_list_witness :
    ∃ e, parseHook ⟨"repo:push", some "hook-1"⟩ sampleEmptyPushPayload = some e
      ∧ e.type = "repo" ∧ e.action = "push" ∧ e.branch = none ∧ e.sha = none :=
  push_event_empty_change_list ⟨"repo:push", some "hook-1"⟩ sampleEmptyPushPayload
    rfl rfl

/-- **C4** (counterexample). The claim says an input whose colon part
count is not exactly three fails with `InvalidRefError`. The source's
`getScmUriParts` is a bare destructuring with no failure path: the
two-part input `bitbucket.org:u-123` decodes to a normal record with
`branch` left `undefined` instead of failing. -/
theorem decode_two_parts_does_not_fail :
    jsSplit ':' "bitbucket.org:u-123" = ["bitbucket.org", "u-123"]
    ∧ getScmUriParts "bitbucket.org:u-123"
        = ⟨some "bitbucket.org", some "u-123", none⟩ := by
  decide

/-- **C4** (amended). Decoding performs no validation and never fails:
for colon-free field strings, a two-part input decodes with the missing
`branch` part `undefined` (`none`), and a four-part input decodes to
the first three parts with the extra part silently dropped. -/
theorem decode_wrong_part_count_no_repair (x y z w : String)
    (hx : ':' ∉ x.data) (hy : ':' ∉ y.data) (hz : ':' ∉ z.data) (hw : ':' ∉ w.data) :
    getScmUriParts (x ++ ":" ++ y) = ⟨some x, some y, none⟩
    ∧ getScmUriParts (x ++ ":" ++ y ++ ":" ++ z ++ ":" ++ w)
        = ⟨some x, some y, some z⟩ := by
  constructor
  · unfold getScmUriParts
    rw [jsSplit_colon_append x y hx, jsSplit_single ':' y hy]
    rfl
  · unfold getScmUriParts
    have e1 : x ++ ":" ++ y ++ ":" ++ z ++ ":" ++ w
        = x ++ ":" ++ (y ++ ":" ++ (z ++ ":" ++ w)) := by
      simp [String.append_assoc]
    rw [e1, jsSplit_colon_append x _ hx, jsSplit_colon_append y _ hy,
      jsSplit_colon_append z w hz, jsSplit_single ':' w hw]
    rfl

/-- **C4** witness: the amended behaviour at concrete two- and
four-part references. -/
theorem decode_wrong_part_count_no_repair_witness :
    getScmUriParts ("bitbucket.org" ++ ":" ++ "u-123")
        = ⟨some "bitbucket.org", some "u-123", none⟩
    ∧ getScmUriParts ("bitbucket.org" ++ ":" ++ "u-123" ++ ":" ++ "main" ++ ":" ++ "extra")
        = ⟨some "bitbucket.org", some "u-123", some "main"⟩ :=
  decode_wrong_part_count_no_repair "bitbucket.org" "u-123" "main" "extra"
    (by decide) (by decide) (by decide) (by decide)

/-- **C5** (confirmed). For non-empty colon-free `hostname`, `repoId`
and `branch`, decoding the composed `hostname:repoId:branch` string
yields back exactly the three original parts. -/
theorem decode_compose_roundtrip (h r b : String)
    (hne : h ≠ "" ∧ r ≠ "" ∧ b ≠ "")
    (hh : ':' ∉ h.data) (hr : ':' ∉ r.data) (hb : ':' ∉ b.data) :
    getScmUriParts (composeScmUri h r b) = ⟨some h, some r, some b⟩ := by
  unfold getScmUriParts
  rw [jsSplit_composeScmUri h r b hh hr hb]
  rfl

/-- **C5** witness: the round-trip at a concrete reference (the repoId
being the owner/uuid pair `_parseUrl` produces). -/
theorem decode_compose_roundtrip_witness :
    getScmUriParts (composeScmUri "bitbucket.org" "alice/u-123" "main")
      = ⟨some "bitbucket.org", some "alice/u-123", some "main"⟩ :=
  decode_compose_roundtrip "bitbucket.org" "alice/u-123" "main"
    (by decide) (by decide) (by decide) (by decide)

/-- **C3** (counterexample). The claim says the middle field of a
resolved reference contains no human-editable owner slug, so owner
renames do not change a held reference. Resolving the same repository
(same provider uuid `u-123`, same branch) under owner `alice` and under
owner `bob` yields two DIFFERENT references, and the middle field of
the first is `alice/u-123` — it embeds the owner slug `alice`. -/
theorem reference_changes_under_owner_rename :
    parseUrl "https://bitbucket.org/alice/repo1#main"
        ⟨"bitbucket.org", "repo1", "main", "alice"⟩ ⟨200, ⟨"u-123"⟩⟩
      = .ok "bitbucket.org:alice/u-123:main"
    ∧ parseUrl "https://bitbucket.org/bob/repo1#main"
        ⟨"bitbucket.org", "repo1", "main", "bob"⟩ ⟨200, ⟨"u-123"⟩⟩
      = .ok "bitbucket.org:bob/u-123:main"
    ∧ ("bitbucket.org:alice/u-123:main" : String) ≠ "bitbucket.org:bob/u-123:main"
    ∧ (getScmUriParts "bitbucket.org:alice/u-123:main").repoId = some "alice/u-123" := by
  decide

/-- **C3** (amended). For every checkout URL successfully resolved
(status 200), the middle field of the returned reference is
`<owner-username>/<uuid>`: its second slash-component is the
provider-stable uuid (the part `getPerm` extracts and compares), but
the field also embeds the human-editable owner username, so an owner
rename produces a different reference. -/
theorem parseUrl_repoId_is_owner_slash_uuid (cu : String) (info : RepoInfo)
    (resp : HttpResponse BranchBody) (h200 : resp.statusCode = 200)
    (hh : ':' ∉ info.hostname.data) (hu : ':' ∉ info.username.data)
    (hid : ':' ∉ resp.body.repositoryUuid.data) (hb : ':' ∉ info.branch.data)
    (hu2 : '/' ∉ info.username.data) (hid2 : '/' ∉ resp.body.repositoryUuid.data) :
    parseUrl cu info resp
      = .ok (composeScmUri info.hostname
          (info.username ++ "/" ++ resp.body.repositoryUuid) info.branch)
    ∧ getScmUriParts (composeScmUri info.hostname
          (info.username ++ "/" ++ resp.body.repositoryUuid) info.branch)
        = ⟨some info.hostname,
           some (info.username ++ "/" ++ resp.body.repositoryUuid),
           some info.branch⟩
    ∧ (jsSplit '/' (info.username ++ "/" ++ resp.body.repositoryUuid))[1]?
        = some resp.body.repositoryUuid := by
  have hmid : ':' ∉ (info.username ++ "/" ++ resp.body.repositoryUuid).data := by
    intro hmem
    rw [String.data_append, String.data_append] at hmem
    rcases List.mem_append.mp hmem with h1 | h1
    · rcases List.mem_append.mp h1 with h2 | h2
      · exact hu h2
      · exact absurd h2 (by decide)
    · exact hid h1
  refine ⟨?_, ?_, ?_⟩
  · unfold parseUrl
    rw [if_neg (by omega), if_neg (by omega)]
    simp [composeScmUri, String.append_assoc]
  · unfold getScmUriParts
    rw [jsSplit_composeScmUri _ _ _ hh hmid hb]
    rfl
  · rw [jsSplit_slash_append info.username _ hu2,
      jsSplit_single '/' _ hid2]
    rfl

/-- **C3** witness: the amended shape at a concrete owner, uuid and
branch. -/
theorem parseUrl_repoId_is_owner_slash_uuid_witness :
    parseUrl "https://bitbucket.org/alice/repo1#main"
        ⟨"bitbucket.org", "repo1", "main", "alice"⟩ ⟨200, ⟨"u-123"⟩⟩
      = .ok (composeScmUri "bitbucket.org" ("alice" ++ "/" ++ "u-123") "main")
    ∧ getScmUriParts (composeScmUri "bitbucket.org" ("alice" ++ "/" ++ "u-123") "main")
        = ⟨some "bitbucket.org", some ("alice" ++ "/" ++ "u-123"), some "main"⟩
    ∧ (jsSplit '/' ("alice" ++ "/" ++ "u-123"))[1]? = some "u-123" :=
  parseUrl_repoId_is_owner_slash_uuid "https://bitbucket.org/alice/repo1#main"
    ⟨"bitbucket.org", "repo1", "main", "alice"⟩ ⟨200, ⟨"u-123"⟩⟩ rfl
    (by decide) (by decide) (by decide) (by decide) (by decide) (by decide)

/-- **C6** (confirmed). The permission aggregate: each scope query is
answered by testing whether the repository's uuid (the stable part of
the repoId) occurs in the list returned for that scope; if any of the
three responses is non-2xx the whole aggregate is an error (the code
rejects on anything other than 200), and when all three succeed the
result is exactly the three membership tests — never a partial
record. -/
theorem permissions_all_or_nothing (repoId : String)
    (ra rp rl : HttpResponse PermissionsBody) :
    ((ra.statusCode < 200 ∨ 300 ≤ ra.statusCode
      ∨ rp.statusCode < 200 ∨ 300 ≤ rp.statusCode
      ∨ rl.statusCode < 200 ∨ 300 ≤ rl.statusCode) →
      isError (getPermissions repoId ra rp rl) = true)
    ∧ (ra.statusCode = 200 → rp.statusCode = 200 → rl.statusCode = 200 →
      getPermissions repoId ra rp rl = .ok
        { admin := ra.body.values.any fun r => some r.uuid == (jsSplit '/' repoId)[1]?
          push := rp.body.values.any fun r => some r.uuid == (jsSplit '/' repoId)[1]?
          pull := rl.body.values.any fun r => some r.uuid == (jsSplit '/' repoId)[1]? }) := by
  constructor
  · intro hbad
    have hne : ra.statusCode ≠ 200 ∨ rp.statusCode ≠ 200 ∨ rl.statusCode ≠ 200 := by
      omega
    unfold getPermissions getPerm
    rcases hne with h | h | h
    · simp [h, isError]
    · by_cases hA : ra.statusCode = 200 <;> simp [h, hA, isError]
    · by_cases hA : ra.statusCode = 200 <;> by_cases hP : rp.statusCode = 200 <;>
        simp [h, hA, hP, isError]
  · intro hA hP hL
    unfold getPermissions getPerm
    simp [hA, hP, hL]

/-- **C6** witness: a 500 on the push scope fails the aggregate even
though admin and pull succeeded; with all three at 200 the aggregate is
the three membership bits. -/
theorem permissions_all_or_nothing_witness :
    isError (getPermissions "alice/u-123"
        ⟨200, ⟨[⟨"u-123"⟩]⟩⟩ ⟨500, ⟨[]⟩⟩ ⟨200, ⟨[⟨"u-123"⟩]⟩⟩) = true
    ∧ getPermissions "alice/u-123"
        ⟨200, ⟨[⟨"u-123"⟩]⟩⟩ ⟨200, ⟨[]⟩⟩ ⟨200, ⟨[⟨"u-999"⟩]⟩⟩
      = .ok ⟨true, false, false⟩ := by
  constructor
  · exact (permissions_all_or_nothing "alice/u-123"
      ⟨200, ⟨[⟨"u-123"⟩]⟩⟩ ⟨500, ⟨[]⟩⟩ ⟨200, ⟨[⟨"u-123"⟩]⟩⟩).1 (by decide)
  · exact ((permissions_all_or_nothing "alice/u-123"
      ⟨200, ⟨[⟨"u-123"⟩]⟩⟩ ⟨200, ⟨[]⟩⟩ ⟨200, ⟨[⟨"u-999"⟩]⟩⟩).2 rfl rfl rfl).trans
      (by decide)

/-- **C7** (counterexample). The claim says a supplied job name `j`
gives description `Screwdriver/<j>`. A supplied but empty job name is
falsy in JS, so the code produces the bare `Screwdriver`, not
`Screwdriver/`. -/
theorem empty_job_name_gives_bare_description :
    (commitStatusBody
        ⟨"bitbucket.org:alice/u-123:main", "abc123", "SUCCESS",
          "https://cd.screwdriver.cd/b/1", some ""⟩).description = "Screwdriver"
    ∧ ("Screwdriver" : String) ≠ "Screwdriver/" := by
  decide

/-- **C7** (amended). `_updateCommitStatus` maps the build status by
the fixed table SUCCESS→SUCCESSFUL, RUNNING→INPROGRESS,
QUEUED→INPROGRESS, FAILURE→FAILED, ABORTED→STOPPED, and sets the
description to `Screwdriver/<jobName>` when a NON-EMPTY job name is
supplied and to `Screwdriver` when the job name is absent or empty
(the ternary tests JS truthiness, under which the empty string counts
as not supplied). -/
theorem commit_status_translation (c : UpdateCommitStatusConfig) :
    (c.buildStatus = "SUCCESS" → (commitStatusBody c).state = some "SUCCESSFUL")
    ∧ (c.buildStatus = "RUNNING" → (commitStatusBody c).state = some "INPROGRESS")
    ∧ (c.buildStatus = "QUEUED" → (commitStatusBody c).state = some "INPROGRESS")
    ∧ (c.buildStatus = "FAILURE" → (commitStatusBody c).state = some "FAILED")
    ∧ (c.buildStatus = "ABORTED" → (commitStatusBody c).state = some "STOPPED")
    ∧ (∀ j, c.jobName = some j → j ≠ "" →
        (commitStatusBody c).description = "Screwdriver/" ++ j)
    ∧ ((c.jobName = none ∨ c.jobName = some "") →
        (commitStatusBody c).description = "Screwdriver") := by
  obtain ⟨su, sha, bs, u, j⟩ := c
  refine ⟨?_, ?_, ?_, ?_, ?_, ?_, ?_⟩
  · intro hb; subst hb; rfl
  · intro hb; subst hb; rfl
  · intro hb; subst hb; rfl
  · intro hb; subst hb; rfl
  · intro hb; subst hb; rfl
  · intro j' hj hne
    subst hj
    simp [commitStatusBody, hne]
  · rintro (hj | hj) <;> subst hj <;> rfl

/-- **C7** witness: QUEUED maps to INPROGRESS; job name `main` gives
description `Screwdriver/main`; no job name gives `Screwdriver`. -/
theorem commit_status_translation_witness :
    (commitStatusBody ⟨"h:alice/u-123:main", "abc123", "QUEUED",
        "https://cd.screwdriver.cd/b/1", some "main"⟩).state = some "INPROGRESS"
    ∧ (commitStatusBody ⟨"h:alice/u-123:main", "abc123", "QUEUED",
        "https://cd.screwdriver.cd/b/1", some "main"⟩).description = "Screwdriver/main"
    ∧ (commitStatusBody ⟨"h:alice/u-123:main", "abc123", "QUEUED",
        "https://cd.screwdriver.cd/b/1", none⟩).description = "Screwdriver" :=
  ⟨(commit_status_translation ⟨"h:alice/u-123:main", "abc123", "QUEUED",
      "https://cd.screwdriver.cd/b/1", some "main"⟩).2.2.1 rfl,
   (commit_status_translation ⟨"h:alice/u-123:main", "abc123", "QUEUED",
      "https://cd.screwdriver.cd/b/1", some "main"⟩).2.2.2.2.2.1 "main" rfl (by decide),
   (commit_status_translation ⟨"h:alice/u-123:main", "abc123", "QUEUED",
      "https://cd.screwdriver.cd/b/1", none⟩).2.2.2.2.2.2 (Or.inl rfl)⟩

/-- **C8** (counterexample). The claim says a 2xx response never
raises. Status 201 is 2xx, yet all three read lookups reject it (the
code accepts only exactly 200). -/
theorem status_201_raises_in_read_lookups :
    isError (getCommitSha ⟨201, ⟨"abc123"⟩⟩) = true
    ∧ isError (getFile ⟨201, ⟨"content"⟩⟩) = true
    ∧ isError (decorateCommit ⟨201, ⟨"https://x", "msg", "alice"⟩⟩
        ⟨200, ⟨"https://u", "Alice", "alice", "https://a"⟩⟩) = true := by
  decide

/-- **C8** (amended). Each read lookup (`getCommitSha`, `getFile`,
`decorateCommit`) rejects with the same single generic error for EVERY
upstream status other than exactly 200 — a 404 is not distinguished by
a special error class, and 2xx statuses other than 200 also reject —
and a 200 response never raises. -/
theorem read_lookups_generic_error_on_non_200
    (r1 : HttpResponse ShaTargetBody) (r2 : HttpResponse FileBody)
    (rc : HttpResponse CommitBody) (ru : HttpResponse UserBody) :
    (r1.statusCode ≠ 200 → isError (getCommitSha r1) = true)
    ∧ (r1.statusCode = 200 → getCommitSha r1 = .ok r1.body.targetHash)
    ∧ (r2.statusCode ≠ 200 → isError (getFile r2) = true)
    ∧ (r2.statusCode = 200 → getFile r2 = .ok r2.body.data)
    ∧ (rc.statusCode ≠ 200 → isError (decorateCommit rc ru) = true)
    ∧ (rc.statusCode = 200 → ru.statusCode = 200 →
        decorateCommit rc ru = .ok
          { url := rc.body.linksHtmlHref
            message := rc.body.message
            author := { url := ru.body.linksHtmlHref
                        name := ru.body.displayName
                        username := ru.body.username
                        avatar := ru.body.linksAvatarHref } }) := by
  refine ⟨?_, ?_, ?_, ?_, ?_, ?_⟩
  · intro hne; unfold getCommitSha; rw [if_pos hne]; rfl
  · intro he; unfold getCommitSha; rw [if_neg (by simp [he])]
  · intro hne; unfold getFile; rw [if_pos hne]; rfl
  · intro he; unfold getFile; rw [if_neg (by simp [he])]
  · intro hne; unfold decorateCommit; rw [if_pos hne]; rfl
  · intro hc hu
    unfold decorateCommit decorateAuthor
    rw [if_neg (by simp [hc]), if_neg (by simp [hu])]
    rfl

/-- **C8** witness: a 404 and a 500 both reject `getCommitSha` (with
the same generic error), and a 200 resolves each lookup. -/
theorem read_lookups_generic_error_on_non_200_witness :
    isError (getCommitSha ⟨404, ⟨"abc123"⟩⟩) = true
    ∧ isError (getCommitSha ⟨500, ⟨"abc123"⟩⟩) = true
    ∧ getCommitSha ⟨200, ⟨"abc123"⟩⟩ = .ok "abc123"
    ∧ getFile ⟨200, ⟨"content"⟩⟩ = .ok "content"
    ∧ decorateCommit ⟨200, ⟨"https://x", "msg", "alice"⟩⟩
        ⟨200, ⟨"https://u", "Alice", "alice", "https://a"⟩⟩
      = .ok ⟨"https://x", "msg", ⟨"https://u", "Alice", "alice", "https://a"⟩⟩ :=
  ⟨(read_lookups_generic_error_on_non_200 ⟨404, ⟨"abc123"⟩⟩ ⟨200, ⟨"content"⟩⟩
      ⟨200, ⟨"https://x", "msg", "alice"⟩⟩
      ⟨200, ⟨"https://u", "Alice", "alice", "https://a"⟩⟩).1 (by decide),
   (read_lookups_generic_error_on_non_200 ⟨500, ⟨"abc123"⟩⟩ ⟨200, ⟨"content"⟩⟩
      ⟨200, ⟨"https://x", "msg", "alice"⟩⟩
      ⟨200, ⟨"https://u", "Alice", "alice", "https://a"⟩⟩).1 (by decide),
   (read_lookups_generic_error_on_non_200 ⟨200, ⟨"abc123"⟩⟩ ⟨200, ⟨"content"⟩⟩
      ⟨200, ⟨"https://x", "msg", "alice"⟩⟩
      ⟨200, ⟨"https://u", "Alice", "alice", "https://a"⟩⟩).2.1 rfl,
   (read_lookups_generic_error_on_non_200 ⟨200, ⟨"abc123"⟩⟩ ⟨200, ⟨"content"⟩⟩
      ⟨200, ⟨"https://x", "msg", "alice"⟩⟩
      ⟨200, ⟨"https://u", "Alice", "alice", "https://a"⟩⟩).2.2.2.1 rfl,
   (read_lookups_generic_error_on_non_200 ⟨200, ⟨"abc123"⟩⟩ ⟨200, ⟨"content"⟩⟩
      ⟨200, ⟨"https://x", "msg", "alice"⟩⟩
      ⟨200, ⟨"https://u", "Alice", "alice", "https://a"⟩⟩).2.2.2.2.2 rfl rfl⟩

end ScmBitbucket
